import Mathlib

/-!
Verification development for the rotor event-processing worker
(`services/rotor/src/index.ts`).  The TypeScript source is shallowly
embedded: JS strings are Lean `String`s, JS truthiness is made explicit,
the node-cache instances are association lists paired with an explicit
log of release-hook invocations, and compiled UDF wrappers are numbered
by a creation counter (each call of the external `UDFWrapper` factory
yields a fresh handle).  Time (TTLs, sweep) is not modelled; an entry is
"cached" while present in the association list.
-/

namespace Rotor

/-- Decidable equality for thrown-or-returned outcomes, used to evaluate
the model on concrete runs. -/
instance {ε α : Type} [DecidableEq ε] [DecidableEq α] : DecidableEq (Except ε α) := fun a b =>
  match a, b with
  | Except.ok x, Except.ok y =>
    if h : x = y then isTrue (by rw [h]) else isFalse (by intro hc; cases hc; exact h rfl)
  | Except.error x, Except.error y =>
    if h : x = y then isTrue (by rw [h]) else isFalse (by intro hc; cases hc; exact h rfl)
  | Except.ok _, Except.error _ => isFalse (by intro hc; cases hc)
  | Except.error _, Except.ok _ => isFalse (by intro hc; cases hc)

/-- Embedding of JavaScript `String.prototype.startsWith` (source uses
`f.functionId.startsWith(...)` throughout): prefix test on the character
sequence. -/
def jsStartsWith (s pre : String) : Bool :=
  pre.data.isPrefixOf s.data

/-- Untyped JavaScript values, as far as the generic cache helper
`getCachedOrLoad` (index.ts lines 57-65) observes them: the helper only
tests truthiness and stores values opaquely.  Numbers are modelled as
integers (no claim depends on float behaviour); objects are numbered
handles. -/
inductive JsValue where
  | undef
  | null
  | jbool (b : Bool)
  | jnum (n : Int)
  | jstr (s : String)
  | jobj (handle : Nat)
deriving DecidableEq

/-- JavaScript truthiness, used by `if (cached)` in `getCachedOrLoad`. -/
def JsValue.truthy : JsValue → Bool
  | .undef => false
  | .null => false
  | .jbool b => b
  | .jnum n => n != 0
  | .jstr s => s != ""
  | .jobj _ => true

/-- State of a generic node-cache instance: an association list from keys
to stored values.  `get` on an absent key returns `undefined`, matching
node-cache. -/
abbrev JsCache := List (String × JsValue)

def jsCacheGet (cache : JsCache) (key : String) : JsValue :=
  match List.lookup key cache with
  | some v => v
  | none => JsValue.undef

def jsCacheSet (cache : JsCache) (key : String) (v : JsValue) : JsCache :=
  (key, v) :: List.filter (fun p => p.1 != key) cache

/-- Result of one `getCachedOrLoad` call: the returned value, the cache
afterwards, and whether the loader was invoked. -/
structure CacheLoadResult where
  value : JsValue
  cache : JsCache
  loaderInvoked : Bool
deriving DecidableEq

/-- Embedding of `getCachedOrLoad` (index.ts lines 57-65):

    const cached = cache.get(key);
    if (cached) { return cached; }
    const loaded = await loader(key);
    cache.set(key, loaded);
    return loaded;

Note the JS truthiness test `if (cached)`: any falsy cached value
(undefined, null, false, 0, "") falls through to the loader. -/
def getCachedOrLoad (cache : JsCache) (key : String) (loader : String → JsValue) :
    CacheLoadResult :=
  let cached := jsCacheGet cache key
  if cached.truthy then
    { value := cached, cache := cache, loaderInvoked := false }
  else
    let loaded := loader key
    { value := loaded, cache := jsCacheSet cache key loaded, loaderInvoked := true }

/-! ## Data model (index.ts lines 75-157 and the protocol types) -/

/-- Options of the synthetic bulker terminal step (index.ts lines 129-134). -/
structure BulkerOptions where
  bulkerEndpoint : String
  destinationId : String
  authToken : String
  dataLayout : String
deriving DecidableEq

/-- Options attached to a function reference.  Declared references carry
an opaque blob; the terminal step carries either the bulker options or
the connection's credentials. -/
inductive FunctionOptions where
  | absent
  | bulkerOpts (o : BulkerOptions)
  | credentials (c : String)
  | raw (blob : String)
deriving DecidableEq

/-- A function reference `{functionId, functionOptions}` from a
connection's declared function list (spec §3). -/
structure FunctionRef where
  functionId : String
  functionOptions : FunctionOptions
deriving DecidableEq

/-- The `connection.options` map, as read by the handler
(`connectionData.functions`, `connectionData.dataLayout`). -/
structure ConnectionOptions where
  functions : Option (List FunctionRef)
  dataLayout : Option String
deriving DecidableEq

/-- An enriched connection record (fields the handler reads). -/
structure Connection where
  id : String
  workspaceId : String
  streamId : String
  destinationId : String
  type : String
  updatedAt : String
  credentialsHash : String
  mode : String
  options : ConnectionOptions
  usesBulker : Bool
  credentials : String
deriving DecidableEq

/-- The decoded bus payload (fields the handler reads). -/
structure IngestMessage where
  connectionId : String
  messageId : String
  type : String
  httpPayload : String
  httpHeaders : Option String
  geo : Option String
  originDomain : Option String
deriving DecidableEq

/-- Embedding of the `mainFunction` selection (index.ts lines 125-148):
bulker-routed connections get the synthetic bulker step with
`dataLayout = connectionData.dataLayout ?? "segment-single-table"`;
otherwise the `builtin.destination.<type>` builtin is looked up in the
registry and configured with the connection's credentials, and absence
of that builtin is a thrown error.  The builtin registry is a parameter
(`getBuiltinFunction` lives outside this package); builtins are opaque
numbered handles. -/
def mainFunction (bulkerBase bulkerAuthKey : String)
    (getBuiltinFunction : String → Option Nat)
    (connection : Connection) (message : IngestMessage) :
    Except String FunctionRef :=
  if connection.usesBulker then
    Except.ok
      { functionId := "builtin.destination.bulker"
        functionOptions := FunctionOptions.bulkerOpts
          { bulkerEndpoint := bulkerBase
            destinationId := message.connectionId
            authToken := bulkerAuthKey
            dataLayout := connection.options.dataLayout.getD ("segment-single-table") } }
  else
    match getBuiltinFunction ("builtin.destination." ++ connection.type) with
    | some _ =>
      Except.ok
        { functionId := "builtin.destination." ++ connection.type
          functionOptions := FunctionOptions.credentials connection.credentials }
    | none =>
      Except.error ("Connection with id " ++ connection.id ++
        " has no functions assigned to it's destination type - " ++ connection.type)

/-- The optional functions filter test
`functionsFilter ? functionsFilter(f.functionId) : true` applied at
index.ts lines 149-151 and again at line 227. -/
def applyFilterPred (functionsFilter : Option (String → Bool)) (functionId : String) : Bool :=
  match functionsFilter with
  | some p => p functionId
  | none => true

def applyFilter (functionsFilter : Option (String → Bool)) (fs : List FunctionRef) :
    List FunctionRef :=
  fs.filter (fun f => applyFilterPred functionsFilter f.functionId)

/-- Embedding of index.ts lines 149-151:
`[...(connectionData.functions || []), mainFunction].filter(...)`. -/
def functions (connection : Connection) (mainF : FunctionRef)
    (functionsFilter : Option (String → Bool)) : List FunctionRef :=
  applyFilter functionsFilter ((connection.options.functions.getD []) ++ [mainF])

/-- The three prefix tests the aggregation applies to function ids
(index.ts lines 160, 207, 209). -/
def isUdfRef (f : FunctionRef) : Bool := jsStartsWith f.functionId ("udf.")

def isTransformationRef (f : FunctionRef) : Bool :=
  jsStartsWith f.functionId ("builtin.transformation.")

def isDestinationRef (f : FunctionRef) : Bool :=
  jsStartsWith f.functionId ("builtin.destination.")

/-- The declared UDF references: `functions.filter(f => f.functionId.startsWith("udf."))`
(index.ts line 160). -/
def udfRefs (fns : List FunctionRef) : List FunctionRef :=
  fns.filter isUdfRef

/-! ## UDF wrapper cache (index.ts lines 45-51 and 161-204)

Compiled wrappers are numbered handles: every call of the external
`UDFWrapper` factory yields the next fresh number (`nextWrapperId`).
The node-cache `del` event handler (lines 48-51) calls
`value.wrapper?.close()`; invoked `close` calls are logged in `closed`.
Crucially — matching node-cache — `set` on an existing key OVERWRITES the
entry without emitting a `del` event, so only `del` (and TTL expiry,
which node-cache routes through `del`) runs the hook. -/

/-- A udfCache entry `{wrapper, hash}` (index.ts line 177). -/
structure CacheEntry where
  wrapper : Nat
  hash : String
deriving DecidableEq

/-- State of the `udfCache` node-cache instance plus the wrapper factory
counter and the log of `close()` calls performed by the del hook. -/
structure UdfCacheState where
  entries : List (String × CacheEntry)
  closed : List Nat
  nextWrapperId : Nat
deriving DecidableEq

def udfCacheGet (st : UdfCacheState) (key : String) : Option CacheEntry :=
  List.lookup key st.entries

/-- node-cache `set`: overwrite without firing the del hook. -/
def udfCacheSet (st : UdfCacheState) (key : String) (v : CacheEntry) : UdfCacheState :=
  { st with entries := (key, v) :: List.filter (fun p => p.1 != key) st.entries }

/-- node-cache `del` (also reached on TTL expiry): removes the entry and
fires the registered del hook, which closes the stored wrapper
(index.ts lines 48-51). -/
def udfCacheDel (st : UdfCacheState) (key : String) : UdfCacheState :=
  match List.lookup key st.entries with
  | some e =>
    { st with
      entries := List.filter (fun p => p.1 != key) st.entries
      closed := st.closed ++ [e.wrapper] }
  | none => st

/-- Embedding of the wrapper-acquisition code (index.ts lines 174-184):

    const codeHash = hash(code);
    let cached = await getCachedOrLoad(udfCache, functionId, async key => {
      return { wrapper: UDFWrapper(key, userFunctionObj.name, code), hash: codeHash };
    });
    if (cached.hash !== codeHash) {
      cached = { wrapper: UDFWrapper(functionId, userFunctionObj.name, code), hash: codeHash };
      udfCache.set(functionId, cached);
    }
    udfCache.ttl(functionId, udfTTL);

Cache entries are objects, hence always truthy, so `getCachedOrLoad`
specialises to: present entry is returned, absent key compiles and
stores.  The `ttl` refresh only moves the (unmodelled) expiry clock.
The hash function is a parameter (`object-hash` is external). -/
def acquireUdf (hashF : String → String) (functionId _name code : String)
    (st : UdfCacheState) : CacheEntry × UdfCacheState :=
  let codeHash := hashF code
  let loadStep : CacheEntry × UdfCacheState :=
    match udfCacheGet st functionId with
    | some c => (c, st)
    | none =>
      let e : CacheEntry := { wrapper := st.nextWrapperId, hash := codeHash }
      (e, udfCacheSet { st with nextWrapperId := st.nextWrapperId + 1 } functionId e)
  let cached := loadStep.1
  let st1 := loadStep.2
  if cached.hash ≠ codeHash then
    let e : CacheEntry := { wrapper := st1.nextWrapperId, hash := codeHash }
    (e, udfCacheSet { st1 with nextWrapperId := st1.nextWrapperId + 1 } functionId e)
  else
    (cached, st1)

/-- Embedding of the per-UDF `exec` closure (index.ts lines 188-201):

    try {
      return await cached.wrapper.userFunction(event, ctx);
    } catch (e) {
      if (e?.message === "Isolate is disposed") {
        cached = { wrapper: UDFWrapper(functionId, userFunctionObj.name, code), hash: codeHash };
        udfCache.set(functionId, cached);
        return await cached.wrapper.userFunction(event, ctx);
      } else { throw e; }
    }

`invoke w` gives the outcome of wrapper `w`'s `userFunction` on the
(fixed) event and context.  The result carries the returned value or
propagated error, the closure variable `cached` afterwards, and the
cache state afterwards. -/
def execUdf {α : Type} (invoke : Nat → Except String α)
    (functionId codeHash : String)
    (cached : CacheEntry) (st : UdfCacheState) :
    Except String α × CacheEntry × UdfCacheState :=
  match invoke cached.wrapper with
  | Except.ok r => (Except.ok r, cached, st)
  | Except.error e =>
    if e = "Isolate is disposed" then
      let rebuilt : CacheEntry := { wrapper := st.nextWrapperId, hash := codeHash }
      let st2 := udfCacheSet { st with nextWrapperId := st.nextWrapperId + 1 } functionId rebuilt
      (invoke rebuilt.wrapper, rebuilt, st2)
    else
      (Except.error e, cached, st)

/-- A fetched function definition (config-store record read at
index.ts lines 163-168). -/
structure FunctionDef where
  workspaceId : String
  name : String
  code : String
deriving DecidableEq

/-- The `functionsCache` node-cache instance: raw loader results are
stored (including `undefined` for an absent definition, which the JS
truthiness test in `getCachedOrLoad` treats as a miss on re-read). -/
abbrev FunctionsCache := List (String × Option FunctionDef)

/-- `getCachedOrLoad(functionsCache, functionId, key => fastStore.getConfig("function", key))`
specialised to function-definition values: a stored record is truthy and
served; a stored `undefined` or an absent key re-invokes the loader and
stores its result. -/
def getCachedOrLoadFunction (getConfigFunction : String → Option FunctionDef)
    (fc : FunctionsCache) (key : String) :
    Option FunctionDef × FunctionsCache :=
  match List.lookup key fc with
  | some (some d) => (some d, fc)
  | _ =>
    let loaded := getConfigFunction key
    (loaded, (key, loaded) :: List.filter (fun p => p.1 != key) fc)

/-- The workspace-mismatch error thrown at index.ts lines 169-173. -/
def workspaceMismatchError (functionId : String) (connection : Connection) : String :=
  "Function " ++ functionId ++ " is not in the same workspace as connection " ++
    connection.id ++ " (" ++ connection.workspaceId ++ ")"

/-- Outcome of resolving UDF references: the value (or thrown error) and
both cache states afterwards. -/
structure ResolveResult (α : Type) where
  result : Except String α
  functionsCache : FunctionsCache
  udfState : UdfCacheState

/-- Embedding of the body of the per-UDF async closure at index.ts
lines 161-184 (definition fetch, workspace check, wrapper acquisition):

    const functionId = f.functionId.substring(4);
    const userFunctionObj = requireDefined(await getCachedOrLoad(functionsCache, functionId, ...),
      `Unknown function: ...`);
    if (userFunctionObj.workspaceId !== connection.workspaceId) { throw ... }
    const code = userFunctionObj.code;
    ... acquireUdf ... -/
def resolveUdfRef (hashF : String → String)
    (getConfigFunction : String → Option FunctionDef)
    (connection : Connection) (f : FunctionRef)
    (fc : FunctionsCache) (st : UdfCacheState) : ResolveResult CacheEntry :=
  let functionId := f.functionId.drop 4
  let fetched := getCachedOrLoadFunction getConfigFunction fc functionId
  match fetched.1 with
  | none =>
    { result := Except.error ("Unknown function: " ++ functionId)
      functionsCache := fetched.2, udfState := st }
  | some userFunctionObj =>
    if userFunctionObj.workspaceId ≠ connection.workspaceId then
      { result := Except.error (workspaceMismatchError functionId connection)
        functionsCache := fetched.2, udfState := st }
    else
      let acq := acquireUdf hashF functionId userFunctionObj.name userFunctionObj.code st
      { result := Except.ok acq.1, functionsCache := fetched.2, udfState := acq.2 }

/-- Resolution of the whole UDF chain (index.ts lines 158-205): the
declared `udf.*` references are resolved in order; a thrown error rejects
the whole `Promise.all`. -/
def resolveUdfChain (hashF : String → String)
    (getConfigFunction : String → Option FunctionDef)
    (connection : Connection) (refs : List FunctionRef)
    (fc : FunctionsCache) (st : UdfCacheState) : ResolveResult (List CacheEntry) :=
  match refs with
  | [] => { result := Except.ok [], functionsCache := fc, udfState := st }
  | f :: rest =>
    let r := resolveUdfRef hashF getConfigFunction connection f fc st
    match r.result with
    | Except.error e =>
      { result := Except.error e, functionsCache := r.functionsCache, udfState := r.udfState }
    | Except.ok entry =>
      let rr := resolveUdfChain hashF getConfigFunction connection rest r.functionsCache r.udfState
      match rr.result with
      | Except.error e =>
        { result := Except.error e, functionsCache := rr.functionsCache, udfState := rr.udfState }
      | Except.ok entries =>
        { result := Except.ok (entry :: entries)
          functionsCache := rr.functionsCache, udfState := rr.udfState }

/-! ## Step aggregation and chain construction (index.ts lines 206-247) -/

/-- The synthetic pipeline step `{ functionId: "udf.PIPELINE" }`
(index.ts line 208); it carries no functionOptions. -/
def pipelineRef : FunctionRef :=
  { functionId := "udf.PIPELINE", functionOptions := FunctionOptions.absent }

/-- Embedding of `aggregatedFunctions` (index.ts lines 206-210):

    const aggregatedFunctions: any[] = [
      ...functions.filter(f => f.functionId.startsWith("builtin.transformation.")),
      ...(udfFuncChain.length > 0 ? [{ functionId: "udf.PIPELINE" }] : []),
      ...functions.filter(f => f.functionId.startsWith("builtin.destination.")),
    ]; -/
def aggregatedFunctions (fns : List FunctionRef) (udfFuncChain : List CacheEntry) :
    List FunctionRef :=
  fns.filter isTransformationRef
    ++ (if udfFuncChain.length > 0 then [pipelineRef] else [])
    ++ fns.filter isDestinationRef

/-- What a constructed chain step executes: a registry builtin (opaque
handle) or the synthetic UDF pipeline. -/
inductive ExecKind where
  | builtin (handle : Nat)
  | udfPipeline
deriving DecidableEq

/-- Both branches of the chain constructor attach the system context
(index.ts lines 234 and 241). -/
inductive StepContext where
  | system
deriving DecidableEq

/-- A constructed chain step `{id, config, exec, context}`. -/
structure ChainStep where
  id : String
  config : FunctionOptions
  exec : ExecKind
  context : StepContext
deriving DecidableEq

/-- Embedding of the per-step classification inside `funcChain`
(index.ts lines 228-246): ids starting with `builtin.` are looked up in
the registry (absence throws `Unknown function ...`), the literal
`udf.PIPELINE` becomes the pipeline step, and anything else throws
`Function of unknown type: ...`. -/
def toChainStep (getBuiltinFunction : String → Option Nat) (f : FunctionRef) :
    Except String ChainStep :=
  if jsStartsWith f.functionId ("builtin.") then
    match getBuiltinFunction f.functionId with
    | some b =>
      Except.ok { id := f.functionId, config := f.functionOptions
                  exec := ExecKind.builtin b, context := StepContext.system }
    | none => Except.error ("Unknown function " ++ f.functionId)
  else if f.functionId = "udf.PIPELINE" then
    Except.ok { id := f.functionId, config := FunctionOptions.absent
                exec := ExecKind.udfPipeline, context := StepContext.system }
  else
    Except.error ("Function of unknown type: " ++ f.functionId)

/-- Embedding of `funcChain` (index.ts lines 225-247): the aggregated
list is run through the functions filter once more and each element is
classified; any thrown error rejects the whole `Promise.all`. -/
def funcChain (getBuiltinFunction : String → Option Nat)
    (functionsFilter : Option (String → Bool))
    (aggregated : List FunctionRef) : Except String (List ChainStep) :=
  (applyFilter functionsFilter aggregated).mapM (toChainStep getBuiltinFunction)

/-! ## Contexts and the UDF pipeline step (index.ts lines 88-107, 212-223) -/

/-- `ctx.source` (index.ts lines 92-95). -/
structure SourceContext where
  id : String
  domain : Option String
deriving DecidableEq

/-- `ctx.destination` (index.ts lines 96-101). -/
structure DestinationContext where
  id : String
  type : String
  updatedAt : String
  hash : String
deriving DecidableEq

/-- `ctx.connection` (index.ts lines 102-106). -/
structure ConnectionContext where
  id : String
  mode : String
  options : ConnectionOptions
deriving DecidableEq

/-- The `EventContext` assembled by the handler (index.ts lines 88-107):
exactly the six fields the UDF pipeline later picks. -/
structure EventContext where
  headers : Option String
  geo : Option String
  retries : Nat
  source : SourceContext
  destination : DestinationContext
  connection : ConnectionContext
deriving DecidableEq

/-- The full per-step context a chain step receives from the executor:
the event context plus the runtime extras (log facade, fetch, the
per-connection store binding and the `$system` context with the
anonymous-event store).  The extras are opaque handles — the claims only
concern whether they can flow into user code. -/
structure FullContext where
  headers : Option String
  geo : Option String
  retries : Nat
  source : SourceContext
  destination : DestinationContext
  connection : ConnectionContext
  logHandle : Nat
  fetchHandle : Nat
  storeHandle : Nat
  systemHandle : Nat
deriving DecidableEq

/-- `pick(ctx, ["geo", "headers", "source", "destination", "connection", "retries"])`
(index.ts line 219). -/
def pickUdfContext (ctx : FullContext) : EventContext :=
  { headers := ctx.headers, geo := ctx.geo, retries := ctx.retries
    source := ctx.source, destination := ctx.destination, connection := ctx.connection }

/-- Embedding of `udfPipelineFunc` (index.ts lines 212-223):

    const chainRes = await runChain(udfFuncChain, event, connection, rl, store,
      pick(ctx, ["geo","headers","source","destination","connection","retries"]));
    checkError(chainRes);
    return chainRes.events;

`runChain` and `checkError` live in `lib/functions-chain.ts` (outside
this package) and are parameters: `runChain` maps the chain, event,
connection, logger, store and the reduced context to an arbitrary
chain-result value, from which `errorOf`/`eventsOf` project the error
and the surviving events. -/
def udfPipelineFunc {ε ρ : Type}
    (runChain : List CacheEntry → ε → Connection → Nat → Nat → EventContext → ρ)
    (errorOf : ρ → Option String) (eventsOf : ρ → List ε)
    (udfFuncChain : List CacheEntry) (connection : Connection) (rl store : Nat)
    (event : ε) (ctx : FullContext) : Except String (List ε) :=
  let chainRes := runChain udfFuncChain event connection rl store (pickUdfContext ctx)
  match errorOf chainRes with
  | some e => Except.error e
  | none => Except.ok (eventsOf chainRes)

/-! ## The message handler (index.ts lines 67-251) -/

/-- The connections node-cache: raw loader results stored, as for the
functions cache. -/
abbrev ConnectionsCache := List (String × Option Connection)

/-- Mutable state the handler touches across the three caches. -/
structure HandlerState where
  connectionsCache : ConnectionsCache
  functionsCache : FunctionsCache
  udf : UdfCacheState
deriving DecidableEq

/-- Work counters: how many times the handler performed each externally
visible action during one invocation. -/
structure HandlerLog where
  jsonDecodes : Nat
  connectionLoads : Nat
  cacheReads : Nat
  cacheWrites : Nat
  chainsBuilt : Nat
  chainsRun : Nat
deriving DecidableEq

def emptyLog : HandlerLog :=
  { jsonDecodes := 0, connectionLoads := 0, cacheReads := 0, cacheWrites := 0
    chainsBuilt := 0, chainsRun := 0 }

/-- External collaborators of the handler. -/
structure HandlerDeps where
  bulkerBase : String
  bulkerAuthKey : String
  getBuiltinFunction : String → Option Nat
  getEnrichedConnection : String → Option Connection
  getConfigFunction : String → Option FunctionDef
  hashF : String → String
  decodeMessage : String → Option IngestMessage

/-- Embedding of `rotorMessageHandler` (index.ts lines 67-251) up to and
including chain construction.  `if (!_message) return;` is the JS
truthiness guard: both `undefined` and the empty string are falsy.
`JSON.parse` is the parameter `decodeMessage` (`none` models a thrown
SyntaxError).  The connection is read through
`getCachedOrLoad(connectionsCache, ...)` with the same truthiness
semantics as the functions cache.  Execution of the built chain
(`runChain`/`checkError`/metrics, in `lib/functions-chain.ts` outside
this package) is abstracted as the final success marker: the claims in
scope stop at chain construction. -/
def rotorMessageHandler (deps : HandlerDeps) (message : Option String)
    (functionsFilter : Option (String → Bool)) (_retries : Nat)
    (st : HandlerState) : Except String Unit × HandlerState × HandlerLog :=
  match message with
  | none => (Except.ok (), st, emptyLog)
  | some m =>
    if m = "" then (Except.ok (), st, emptyLog)
    else
      let log0 : HandlerLog := { emptyLog with jsonDecodes := 1 }
      match deps.decodeMessage m with
      | none => (Except.error ("JSON.parse: malformed message"), st, log0)
      | some msg =>
        let connLoad :=
          match List.lookup msg.connectionId st.connectionsCache with
          | some (some c) => (some c, st.connectionsCache, false)
          | _ =>
            let loaded := deps.getEnrichedConnection msg.connectionId
            (loaded,
             (msg.connectionId, loaded) ::
               List.filter (fun p => p.1 != msg.connectionId) st.connectionsCache,
             true)
        let st1 := { st with connectionsCache := connLoad.2.1 }
        let log1 := { log0 with
          cacheReads := 1
          connectionLoads := if connLoad.2.2 then 1 else 0
          cacheWrites := if connLoad.2.2 then 1 else 0 }
        match connLoad.1 with
        | none => (Except.error ("Unknown connection: " ++ msg.connectionId), st1, log1)
        | some connection =>
          match mainFunction deps.bulkerBase deps.bulkerAuthKey deps.getBuiltinFunction
              connection msg with
          | Except.error e => (Except.error e, st1, log1)
          | Except.ok mainF =>
            let fns := functions connection mainF functionsFilter
            let rr := resolveUdfChain deps.hashF deps.getConfigFunction connection
              (udfRefs fns) st1.functionsCache st1.udf
            let st2 := { st1 with functionsCache := rr.functionsCache, udf := rr.udfState }
            match rr.result with
            | Except.error e => (Except.error e, st2, log1)
            | Except.ok udfChain =>
              match funcChain deps.getBuiltinFunction functionsFilter
                  (aggregatedFunctions fns udfChain) with
              | Except.error e => (Except.error e, st2, log1)
              | Except.ok _steps =>
                (Except.ok (), st2, { log1 with chainsBuilt := 1, chainsRun := 1 })

/-! ## General lemmas -/

theorem isPrefixOf_self_append (l t : List Char) : l.isPrefixOf (l ++ t) = true := by
  induction l with
  | nil => simp
  | cons a as ih => simp [List.isPrefixOf, ih]

theorem jsStartsWith_append (p t : String) : jsStartsWith (p ++ t) p = true := by
  unfold jsStartsWith
  rw [String.data_append]
  exact isPrefixOf_self_append p.data t.data

/-! ## Shared sample data for concrete instantiations -/

def sampleConnection : Connection :=
  { id := "c1", workspaceId := "w1", streamId := "s1", destinationId := "d1"
    type := "postgres", updatedAt := "t0", credentialsHash := "ch", mode := "stream"
    options := { functions := none, dataLayout := some "segment" }
    usesBulker := true, credentials := "creds" }

def sampleMessage : IngestMessage :=
  { connectionId := "c1", messageId := "m1", type := "track", httpPayload := "p"
    httpHeaders := none, geo := none, originDomain := none }

/-! ## Claim theorems -/

/-- C6: for a connection with `usesBulker = true`, the terminal step is
`builtin.destination.bulker` with options exactly
`{bulkerEndpoint: BULKER_URL, destinationId: message.connectionId,
authToken: BULKER_AUTH_KEY, dataLayout: connection.options.dataLayout
if present, otherwise "segment-single-table"}`. -/
theorem bulker_terminal_step_options (bulkerBase bulkerAuthKey : String)
    (getBuiltinFunction : String → Option Nat)
    (connection : Connection) (message : IngestMessage)
    (h : connection.usesBulker = true) :
    mainFunction bulkerBase bulkerAuthKey getBuiltinFunction connection message =
      Except.ok
        { functionId := "builtin.destination.bulker"
          functionOptions := FunctionOptions.bulkerOpts
            { bulkerEndpoint := bulkerBase
              destinationId := message.connectionId
              authToken := bulkerAuthKey
              dataLayout := connection.options.dataLayout.getD ("segment-single-table") } }
    ∧ (∀ d, connection.options.dataLayout = some d →
        connection.options.dataLayout.getD ("segment-single-table") = d)
    ∧ (connection.options.dataLayout = none →
        connection.options.dataLayout.getD ("segment-single-table") = "segment-single-table") := by
  refine ⟨?_, ?_, ?_⟩
  · simp [mainFunction, h]
  · intro d hd; rw [hd]; rfl
  · intro hd; rw [hd]; rfl

theorem bulker_terminal_step_options_witness :
    sampleConnection.usesBulker = true ∧
    mainFunction ("burl") ("bkey") (fun _ => none) sampleConnection sampleMessage =
      Except.ok
        { functionId := "builtin.destination.bulker"
          functionOptions := FunctionOptions.bulkerOpts
            { bulkerEndpoint := "burl", destinationId := "c1"
              authToken := "bkey", dataLayout := "segment" } } :=
  ⟨rfl,
   (bulker_terminal_step_options ("burl") ("bkey") (fun _ => none)
      sampleConnection sampleMessage rfl).1⟩

/-- C9: for a connection with `usesBulker = false`, absence of
`builtin.destination.<connection.type>` in the builtin registry is a
fatal configuration error; when present, the terminal step is that
builtin configured with the connection's credentials. -/
theorem missing_destination_builtin_fatal (bulkerBase bulkerAuthKey : String)
    (getBuiltinFunction : String → Option Nat)
    (connection : Connection) (message : IngestMessage)
    (h : connection.usesBulker = false) :
    (getBuiltinFunction ("builtin.destination." ++ connection.type) = none →
      mainFunction bulkerBase bulkerAuthKey getBuiltinFunction connection message =
        Except.error ("Connection with id " ++ connection.id ++
          " has no functions assigned to it's destination type - " ++ connection.type))
    ∧ (∀ b, getBuiltinFunction ("builtin.destination." ++ connection.type) = some b →
        mainFunction bulkerBase bulkerAuthKey getBuiltinFunction connection message =
          Except.ok
            { functionId := "builtin.destination." ++ connection.type
              functionOptions := FunctionOptions.credentials connection.credentials }) := by
  constructor
  · intro hnone; simp [mainFunction, h, hnone]
  · intro b hsome; simp [mainFunction, h, hsome]

def c9Connection : Connection := { sampleConnection with usesBulker := false }

theorem missing_destination_builtin_fatal_witness :
    c9Connection.usesBulker = false
    ∧ (fun _ => (none : Option Nat)) ("builtin.destination." ++ c9Connection.type) = none
    ∧ (fun _ => (some 7 : Option Nat)) ("builtin.destination." ++ c9Connection.type) = some 7
    ∧ mainFunction ("burl") ("bkey") (fun _ => none) c9Connection sampleMessage =
        Except.error ("Connection with id " ++ "c1" ++
          " has no functions assigned to it's destination type - " ++ "postgres")
    ∧ mainFunction ("burl") ("bkey") (fun _ => some 7) c9Connection sampleMessage =
        Except.ok
          { functionId := "builtin.destination." ++ "postgres"
            functionOptions := FunctionOptions.credentials ("creds") } :=
  ⟨rfl, rfl, rfl,
   (missing_destination_builtin_fatal ("burl") ("bkey") (fun _ => none)
      c9Connection sampleMessage rfl).1 rfl,
   (missing_destination_builtin_fatal ("burl") ("bkey") (fun _ => some 7)
      c9Connection sampleMessage rfl).2 7 rfl⟩

/-- C10: calling the handler with an undefined or empty-string message
returns successfully with no work performed: the state of all three
caches is unchanged and every work counter is zero. -/
theorem empty_message_no_work (deps : HandlerDeps)
    (functionsFilter : Option (String → Bool)) (retries : Nat) (st : HandlerState) :
    rotorMessageHandler deps none functionsFilter retries st = (Except.ok (), st, emptyLog)
    ∧ rotorMessageHandler deps (some "") functionsFilter retries st =
        (Except.ok (), st, emptyLog) := by
  exact ⟨rfl, rfl⟩

/-- First acquisition of UDF `f` with `code1` from an empty UDF cache
(the hash function is taken to be the identity on this concrete run). -/
def c3First : CacheEntry × UdfCacheState :=
  acquireUdf (fun s => s) ("f") ("name") ("code1")
    { entries := [], closed := [], nextWrapperId := 0 }

/-- Second acquisition of the same UDF after its code changed to `code2`. -/
def c3Second : CacheEntry × UdfCacheState :=
  acquireUdf (fun s => s) ("f") ("name") ("code2") c3First.2

/-- C3 (code bug): seeding the UDF cache by acquiring wrapper W1 = 0 for
`code1` and then acquiring with `code2` (different hash) compiles and
returns the distinct wrapper W2 = 1 and replaces the cache entry with
`{wrapper: W2, hash: hash(code2)}` — but `W1.close()` is never invoked:
the replacement goes through node-cache `set`, which does not fire the
`del` hook (the hook demonstrably fires on an actual delete, closing
only the current wrapper W2). -/
theorem udf_code_change_replaces_without_close :
    (acquireUdf (fun s => s) ("f") ("name") ("code1")
        { entries := [], closed := [], nextWrapperId := 0 }).1 =
      { wrapper := 0, hash := "code1" }
    ∧ c3Second.1.wrapper = 1
    ∧ c3Second.1 ≠ c3First.1
    ∧ udfCacheGet c3Second.2 ("f") = some { wrapper := 1, hash := "code2" }
    ∧ c3Second.2.closed = []
    ∧ (udfCacheDel c3Second.2 ("f")).closed = [1] := by
  decide

/-- C2: the per-UDF exec closure retries exactly once on the specific
`Isolate is disposed` error — rebuilding one fresh wrapper from the same
code (the stored hash is the same `codeHash`), storing it in the UDF
cache, and returning the retry's outcome unchanged (a second error,
disposed or not, propagates with no further rebuild: the factory counter
advances exactly once); a successful first invocation and any other
first-invocation error leave the closure state and cache untouched. -/
theorem execUdf_disposed_retry_once {α : Type} (invoke : Nat → Except String α)
    (functionId codeHash : String) (cached : CacheEntry) (st : UdfCacheState) :
    (∀ r, invoke cached.wrapper = Except.ok r →
      execUdf invoke functionId codeHash cached st = (Except.ok r, cached, st))
    ∧ (∀ e, invoke cached.wrapper = Except.error e → e ≠ "Isolate is disposed" →
      execUdf invoke functionId codeHash cached st = (Except.error e, cached, st))
    ∧ (invoke cached.wrapper = Except.error ("Isolate is disposed") →
      execUdf invoke functionId codeHash cached st =
        (invoke st.nextWrapperId,
         { wrapper := st.nextWrapperId, hash := codeHash },
         udfCacheSet { st with nextWrapperId := st.nextWrapperId + 1 } functionId
           { wrapper := st.nextWrapperId, hash := codeHash })) := by
  refine ⟨?_, ?_, ?_⟩
  · intro r h; simp [execUdf, h]
  · intro e h hne; simp [execUdf, h, hne]
  · intro h; simp [execUdf, h]

/-- Invocation behaviour for the C2 witness run: wrapper 0 raises the
disposed error, the rebuilt wrapper 1 succeeds. -/
def c2Invoke : Nat → Except String Nat :=
  fun w => if w = 0 then Except.error ("Isolate is disposed") else Except.ok 7

def c2State : UdfCacheState :=
  { entries := [(("f"), { wrapper := 0, hash := "h1" })], closed := [], nextWrapperId := 1 }

theorem execUdf_disposed_retry_once_witness :
    c2Invoke 0 = Except.error ("Isolate is disposed")
    ∧ execUdf c2Invoke ("f") ("h1") { wrapper := 0, hash := "h1" } c2State =
        (Except.ok 7, { wrapper := 1, hash := "h1" },
         udfCacheSet { c2State with nextWrapperId := 2 } ("f")
           { wrapper := 1, hash := "h1" }) :=
  ⟨rfl,
   (execUdf_disposed_retry_once c2Invoke ("f") ("h1")
      { wrapper := 0, hash := "h1" } c2State).2.2 rfl⟩

/-- Loader for the C8 counterexample run: it returns the number 0, a
value that is neither undefined nor null but is falsy in JavaScript. -/
def c8Loader : String → JsValue := fun _ => JsValue.jnum 0

def c8First : CacheLoadResult := getCachedOrLoad [] ("k") c8Loader

def c8Second : CacheLoadResult := getCachedOrLoad c8First.cache ("k") c8Loader

/-- C8 (counterexample): a loader returning the non-nil value `0` is
stored in the cache by the first `getCachedOrLoad`, yet the second
lookup of the same key invokes the loader again — the cached value is
not served, refuting "a non-nil loaded value, by contrast, is served
from the cache until expiry" (the `if (cached)` truthiness test treats
every falsy value like a miss). -/
theorem getCachedOrLoad_falsy_nonnil_cex :
    (JsValue.jnum 0 ≠ JsValue.undef ∧ JsValue.jnum 0 ≠ JsValue.null)
    ∧ c8First.loaderInvoked = true
    ∧ List.lookup ("k") c8First.cache = some (JsValue.jnum 0)
    ∧ c8Second.loaderInvoked = true
    ∧ c8Second.value = JsValue.jnum 0 := by
  decide

theorem jsCacheGet_set (cache : JsCache) (key : String) (v : JsValue) :
    jsCacheGet (jsCacheSet cache key v) key = v := by
  simp [jsCacheGet, jsCacheSet, List.lookup]

/-- C8 (amended): for a key whose cached value is falsy (in particular
absent or nil), `getCachedOrLoad` invokes the loader; after it stores
the loaded value, a second lookup re-invokes the loader whenever that
value is falsy — nil (undefined/null) is never served, and neither is
any other falsy value — while a truthy loaded value is served from the
cache without invoking the loader. -/
theorem getCachedOrLoad_nil_retries_truthy_served (cache : JsCache) (key : String)
    (loader : String → JsValue)
    (hmiss : (jsCacheGet cache key).truthy = false) :
    (getCachedOrLoad cache key loader).loaderInvoked = true
    ∧ (getCachedOrLoad cache key loader).cache = jsCacheSet cache key (loader key)
    ∧ ((loader key).truthy = false →
        (getCachedOrLoad (getCachedOrLoad cache key loader).cache key loader).loaderInvoked
          = true)
    ∧ ((loader key).truthy = true →
        getCachedOrLoad (getCachedOrLoad cache key loader).cache key loader =
          { value := loader key
            cache := (getCachedOrLoad cache key loader).cache
            loaderInvoked := false }) := by
  refine ⟨?_, ?_, ?_, ?_⟩
  · simp [getCachedOrLoad, hmiss]
  · simp [getCachedOrLoad, hmiss]
  · intro hfalsy
    simp [getCachedOrLoad, hmiss, jsCacheGet_set, hfalsy]
  · intro htruthy
    simp [getCachedOrLoad, hmiss, jsCacheGet_set, htruthy]

def c8TruthyLoader : String → JsValue := fun _ => JsValue.jobj 5

theorem getCachedOrLoad_nil_retries_truthy_served_witness :
    (jsCacheGet [] ("k")).truthy = false
    ∧ ((getCachedOrLoad [] ("k") c8TruthyLoader).loaderInvoked = true
       ∧ (getCachedOrLoad [] ("k") c8TruthyLoader).cache =
           jsCacheSet [] ("k") (c8TruthyLoader ("k"))
       ∧ ((c8TruthyLoader ("k")).truthy = false →
           (getCachedOrLoad (getCachedOrLoad [] ("k") c8TruthyLoader).cache ("k")
              c8TruthyLoader).loaderInvoked = true)
       ∧ ((c8TruthyLoader ("k")).truthy = true →
           getCachedOrLoad (getCachedOrLoad [] ("k") c8TruthyLoader).cache ("k")
              c8TruthyLoader =
             { value := c8TruthyLoader ("k")
               cache := (getCachedOrLoad [] ("k") c8TruthyLoader).cache
               loaderInvoked := false })) :=
  ⟨by decide, getCachedOrLoad_nil_retries_truthy_served [] ("k") c8TruthyLoader (by decide)⟩

/-- C5: when the fetched function definition's workspaceId differs from
the connection's, resolving the UDF reference raises exactly the
workspace-mismatch error and leaves the UDF cache state untouched — no
wrapper is compiled (the factory counter is unchanged), cached (the
entries are unchanged) or closed, and no chain entry is produced that
could be invoked. -/
theorem workspace_mismatch_blocks_wrapper (hashF : String → String)
    (getConfigFunction : String → Option FunctionDef)
    (connection : Connection) (f : FunctionRef)
    (fc : FunctionsCache) (st : UdfCacheState) (d : FunctionDef)
    (hfetch : (getCachedOrLoadFunction getConfigFunction fc (f.functionId.drop 4)).1 = some d)
    (hmismatch : d.workspaceId ≠ connection.workspaceId) :
    (resolveUdfRef hashF getConfigFunction connection f fc st).result =
      Except.error (workspaceMismatchError (f.functionId.drop 4) connection)
    ∧ (resolveUdfRef hashF getConfigFunction connection f fc st).udfState = st := by
  constructor <;> simp [resolveUdfRef, hfetch, hmismatch]

def c5FunctionDef : FunctionDef := { workspaceId := "w2", name := "f9", code := "code" }

def c5GetConfig : String → Option FunctionDef := fun _ => some c5FunctionDef

theorem workspace_mismatch_blocks_wrapper_witness :
    (getCachedOrLoadFunction c5GetConfig [] (("udf.f9").drop 4)).1 = some c5FunctionDef
    ∧ c5FunctionDef.workspaceId ≠ sampleConnection.workspaceId
    ∧ (resolveUdfRef (fun s => s) c5GetConfig sampleConnection
        { functionId := "udf.f9", functionOptions := FunctionOptions.absent } []
        { entries := [], closed := [], nextWrapperId := 0 }).result =
        Except.error (workspaceMismatchError (("udf.f9").drop 4) sampleConnection)
    ∧ (resolveUdfRef (fun s => s) c5GetConfig sampleConnection
        { functionId := "udf.f9", functionOptions := FunctionOptions.absent } []
        { entries := [], closed := [], nextWrapperId := 0 }).udfState =
        { entries := [], closed := [], nextWrapperId := 0 } :=
  ⟨rfl, by decide,
   (workspace_mismatch_blocks_wrapper (fun s => s) c5GetConfig sampleConnection
      { functionId := "udf.f9", functionOptions := FunctionOptions.absent } []
      { entries := [], closed := [], nextWrapperId := 0 } c5FunctionDef rfl
      (by decide)).1,
   (workspace_mismatch_blocks_wrapper (fun s => s) c5GetConfig sampleConnection
      { functionId := "udf.f9", functionOptions := FunctionOptions.absent } []
      { entries := [], closed := [], nextWrapperId := 0 } c5FunctionDef rfl
      (by decide)).2⟩

/-- C7: the context handed to the UDF subchain is exactly the six picked
fields of the full context, so the pipeline step's behaviour is
identical for any two full contexts agreeing on those six fields — for
every possible `runChain`/`checkError` behaviour, the system context and
the other runtime extras can neither influence nor be observed by the
UDF pipeline. -/
theorem udfPipeline_reduced_context_invariance {ε ρ : Type}
    (runChain : List CacheEntry → ε → Connection → Nat → Nat → EventContext → ρ)
    (errorOf : ρ → Option String) (eventsOf : ρ → List ε)
    (udfFuncChain : List CacheEntry) (connection : Connection) (rl store : Nat)
    (event : ε) (ctx1 ctx2 : FullContext)
    (hgeo : ctx1.geo = ctx2.geo) (hheaders : ctx1.headers = ctx2.headers)
    (hsource : ctx1.source = ctx2.source)
    (hdest : ctx1.destination = ctx2.destination)
    (hconn : ctx1.connection = ctx2.connection)
    (hretries : ctx1.retries = ctx2.retries) :
    pickUdfContext ctx1 = pickUdfContext ctx2
    ∧ udfPipelineFunc runChain errorOf eventsOf udfFuncChain connection rl store event ctx1 =
      udfPipelineFunc runChain errorOf eventsOf udfFuncChain connection rl store event ctx2 := by
  have hp : pickUdfContext ctx1 = pickUdfContext ctx2 := by
    simp [pickUdfContext, hgeo, hheaders, hsource, hdest, hconn, hretries]
  exact ⟨hp, by simp [udfPipelineFunc, hp]⟩

def c7Source : SourceContext := { id := "s1", domain := none }

def c7Destination : DestinationContext :=
  { id := "d1", type := "postgres", updatedAt := "t0", hash := "ch" }

def c7ConnectionCtx : ConnectionContext :=
  { id := "c1", mode := "stream", options := { functions := none, dataLayout := none } }

/-- Two full contexts agreeing on the six picked fields but differing in
every runtime extra, in particular the system context handle. -/
def c7Ctx1 : FullContext :=
  { headers := some "h", geo := some "g", retries := 2, source := c7Source
    destination := c7Destination, connection := c7ConnectionCtx
    logHandle := 0, fetchHandle := 0, storeHandle := 0, systemHandle := 0 }

def c7Ctx2 : FullContext :=
  { c7Ctx1 with logHandle := 9, fetchHandle := 8, storeHandle := 7, systemHandle := 6 }

/-- A sample chain-result behaviour that exposes the whole reduced
context in its output. -/
def c7RunChain : List CacheEntry → Nat → Connection → Nat → Nat → EventContext →
    Option String × List Nat :=
  fun _ event _ _ _ ec => (none, [event, ec.retries])

theorem udfPipeline_reduced_context_invariance_witness :
    c7Ctx1.geo = c7Ctx2.geo ∧ c7Ctx1.headers = c7Ctx2.headers
    ∧ c7Ctx1.source = c7Ctx2.source ∧ c7Ctx1.destination = c7Ctx2.destination
    ∧ c7Ctx1.connection = c7Ctx2.connection ∧ c7Ctx1.retries = c7Ctx2.retries
    ∧ c7Ctx1.systemHandle ≠ c7Ctx2.systemHandle
    ∧ pickUdfContext c7Ctx1 = pickUdfContext c7Ctx2
    ∧ udfPipelineFunc c7RunChain Prod.fst Prod.snd [] sampleConnection 0 0 5 c7Ctx1 =
        udfPipelineFunc c7RunChain Prod.fst Prod.snd [] sampleConnection 0 0 5 c7Ctx2 :=
  ⟨rfl, rfl, rfl, rfl, rfl, rfl, by decide,
   (udfPipeline_reduced_context_invariance c7RunChain Prod.fst Prod.snd []
      sampleConnection 0 0 5 c7Ctx1 c7Ctx2 rfl rfl rfl rfl rfl rfl).1,
   (udfPipeline_reduced_context_invariance c7RunChain Prod.fst Prod.snd []
      sampleConnection 0 0 5 c7Ctx1 c7Ctx2 rfl rfl rfl rfl rfl rfl).2⟩

/-! ## C4: unknown function-id classes -/

/-- A declared reference whose id matches none of the three recognised
prefixes. -/
def c4FooRef : FunctionRef := { functionId := "foo.bar", functionOptions := FunctionOptions.absent }

def c4Connection : Connection :=
  { sampleConnection with
    id := "c4"
    options := { functions := some [c4FooRef], dataLayout := none } }

/-- The terminal step `mainFunction` computes for `c4Connection` and
`sampleMessage`. -/
def c4MainF : FunctionRef :=
  { functionId := "builtin.destination.bulker"
    functionOptions := FunctionOptions.bulkerOpts
      { bulkerEndpoint := "burl", destinationId := "c1", authToken := "bkey"
        dataLayout := "segment-single-table" } }

def c4Registry : String → Option Nat :=
  fun s => if s = "builtin.destination.bulker" then some 0 else none

def c4Deps : HandlerDeps :=
  { bulkerBase := "burl", bulkerAuthKey := "bkey"
    getBuiltinFunction := c4Registry
    getEnrichedConnection := fun _ => some c4Connection
    getConfigFunction := fun _ => none
    hashF := fun s => s
    decodeMessage := fun _ => some sampleMessage }

def c4State : HandlerState :=
  { connectionsCache := [], functionsCache := []
    udf := { entries := [], closed := [], nextWrapperId := 0 } }

/-- C4 (counterexample): a declared reference `foo.bar` matching none of
`builtin.transformation.` / `builtin.destination.` / `udf.` does NOT
make processing fail: the aggregation drops it silently (it survives
into the raw list but appears in no aggregated segment), chain
construction succeeds, and the whole message handler returns success —
refuting the claimed fatal `unknown function type` error. -/
theorem unknown_function_type_silently_ignored_cex :
    isTransformationRef c4FooRef = false
    ∧ isDestinationRef c4FooRef = false
    ∧ isUdfRef c4FooRef = false
    ∧ functions c4Connection c4MainF none = [c4FooRef, c4MainF]
    ∧ aggregatedFunctions (functions c4Connection c4MainF none) [] = [c4MainF]
    ∧ funcChain c4Registry none (aggregatedFunctions (functions c4Connection c4MainF none) []) =
        Except.ok [{ id := "builtin.destination.bulker", config := c4MainF.functionOptions,
                     exec := ExecKind.builtin 0, context := StepContext.system }]
    ∧ (rotorMessageHandler c4Deps (some ("x")) none 0 c4State).1 = Except.ok () := by
  decide

/-- C4 (amended): a declared function reference whose id begins with
none of `builtin.transformation.`, `builtin.destination.` or `udf.` is
silently ignored: it is never an element of the aggregated step list
(so the `Function of unknown type` throw cannot fire on it), it
contributes nothing to the UDF chain, and removing it from the declared
list leaves the aggregated step list unchanged. -/
theorem unknown_function_type_refs_excluded (f : FunctionRef) (fns : List FunctionRef)
    (udfChain : List CacheEntry)
    (h1 : isTransformationRef f = false)
    (h2 : isDestinationRef f = false)
    (h3 : isUdfRef f = false) :
    f ∉ aggregatedFunctions fns udfChain
    ∧ udfRefs (f :: fns) = udfRefs fns
    ∧ aggregatedFunctions (f :: fns) udfChain = aggregatedFunctions fns udfChain := by
  refine ⟨?_, ?_, ?_⟩
  · intro hmem
    unfold aggregatedFunctions at hmem
    rcases List.mem_append.mp hmem with hm | hm
    · rcases List.mem_append.mp hm with hm2 | hm2
      · have := (List.mem_filter.mp hm2).2
        rw [h1] at this
        exact Bool.false_ne_true this
      · have hpipe : f = pipelineRef := by
          by_cases hc : udfChain.length > 0
          · rw [if_pos hc] at hm2
            simpa using hm2
          · rw [if_neg hc] at hm2
            simp at hm2
        rw [hpipe] at h3
        exact absurd h3 (by decide)
    · have := (List.mem_filter.mp hm).2
      rw [h2] at this
      exact Bool.false_ne_true this
  · simp [udfRefs, List.filter_cons, h3]
  · simp [aggregatedFunctions, List.filter_cons, h1, h2]

theorem unknown_function_type_refs_excluded_witness :
    isTransformationRef c4FooRef = false
    ∧ isDestinationRef c4FooRef = false
    ∧ isUdfRef c4FooRef = false
    ∧ (c4FooRef ∉ aggregatedFunctions [c4MainF] []
       ∧ udfRefs (c4FooRef :: [c4MainF]) = udfRefs [c4MainF]
       ∧ aggregatedFunctions (c4FooRef :: [c4MainF]) [] =
           aggregatedFunctions [c4MainF] []) :=
  ⟨by decide, by decide, by decide,
   unknown_function_type_refs_excluded c4FooRef [c4MainF] []
     (by decide) (by decide) (by decide)⟩

/-! ## C1: structure of the aggregated step list -/

theorem resolveUdfChain_length (hashF : String → String)
    (getConfigFunction : String → Option FunctionDef) (connection : Connection) :
    ∀ (refs : List FunctionRef) (fc : FunctionsCache) (st : UdfCacheState)
      (out : List CacheEntry),
      (resolveUdfChain hashF getConfigFunction connection refs fc st).result =
        Except.ok out →
      out.length = refs.length := by
  intro refs
  induction refs with
  | nil =>
    intro fc st out h
    simp only [resolveUdfChain] at h
    simp only [Except.ok.injEq] at h
    rw [← h]
    rfl
  | cons f rest ih =>
    intro fc st out h
    simp only [resolveUdfChain] at h
    split at h
    · simp at h
    · rename_i entry heq
      split at h
      · simp at h
      · rename_i entries heq2
        simp only [Except.ok.injEq] at h
        rw [← h]
        simp [ih _ _ entries heq2]

/-- C1: with the terminal step appended and the UDF chain resolved, the
aggregated step list is exactly: the declared `builtin.transformation.*`
references in declared order, then one synthetic `udf.PIPELINE` step iff
the resolved UDF chain is non-empty (equivalently, iff some declared
reference is a `udf.*` reference), then the declared
`builtin.destination.*` references in declared order — among which the
appended terminal step always falls (its id starts with
`builtin.destination.` in both branches) and, when not excluded by the
functions filter, is the last step of the whole list; the aggregation
depends only on the per-class subsequences, not on how the classes were
interleaved in the declared list. -/
theorem aggregated_step_list_structure
    (bulkerBase bulkerAuthKey : String) (getBuiltinFunction : String → Option Nat)
    (connection : Connection) (message : IngestMessage) (mainF : FunctionRef)
    (functionsFilter : Option (String → Bool))
    (hashF : String → String) (getConfigFunction : String → Option FunctionDef)
    (fc : FunctionsCache) (st : UdfCacheState) (udfChain : List CacheEntry)
    (hmain : mainFunction bulkerBase bulkerAuthKey getBuiltinFunction connection message =
      Except.ok mainF)
    (hresolve : (resolveUdfChain hashF getConfigFunction connection
        (udfRefs (functions connection mainF functionsFilter)) fc st).result =
      Except.ok udfChain) :
    aggregatedFunctions (functions connection mainF functionsFilter) udfChain =
      (functions connection mainF functionsFilter).filter isTransformationRef
        ++ (if udfRefs (functions connection mainF functionsFilter) = [] then []
            else [pipelineRef])
        ++ (functions connection mainF functionsFilter).filter isDestinationRef
    ∧ isDestinationRef mainF = true
    ∧ (applyFilterPred functionsFilter mainF.functionId = true →
        ((functions connection mainF functionsFilter).filter isDestinationRef).getLast?
            = some mainF
        ∧ (aggregatedFunctions (functions connection mainF functionsFilter) udfChain).getLast?
            = some mainF)
    ∧ (∀ fns' : List FunctionRef,
        fns'.filter isTransformationRef =
          (functions connection mainF functionsFilter).filter isTransformationRef →
        fns'.filter isDestinationRef =
          (functions connection mainF functionsFilter).filter isDestinationRef →
        aggregatedFunctions fns' udfChain =
          aggregatedFunctions (functions connection mainF functionsFilter) udfChain) := by
  have hlen : udfChain.length =
      (udfRefs (functions connection mainF functionsFilter)).length :=
    resolveUdfChain_length hashF getConfigFunction connection _ fc st udfChain hresolve
  have hdest : isDestinationRef mainF = true := by
    unfold mainFunction at hmain
    by_cases hb : connection.usesBulker
    · rw [if_pos hb] at hmain
      simp only [Except.ok.injEq] at hmain
      rw [← hmain]
      rfl
    · rw [if_neg hb] at hmain
      cases hreg : getBuiltinFunction ("builtin.destination." ++ connection.type) with
      | none => rw [hreg] at hmain; exact absurd hmain (by simp)
      | some b =>
        rw [hreg] at hmain
        simp only [Except.ok.injEq] at hmain
        rw [← hmain]
        unfold isDestinationRef
        exact jsStartsWith_append _ _
  have hstruct : aggregatedFunctions (functions connection mainF functionsFilter) udfChain =
      (functions connection mainF functionsFilter).filter isTransformationRef
        ++ (if udfRefs (functions connection mainF functionsFilter) = [] then []
            else [pipelineRef])
        ++ (functions connection mainF functionsFilter).filter isDestinationRef := by
    by_cases hu : udfRefs (functions connection mainF functionsFilter) = []
    · have hz : udfChain.length = 0 := by rw [hlen, hu]; rfl
      rw [aggregatedFunctions, if_neg (by rw [hz]; exact Nat.lt_irrefl 0), if_pos hu]
    · have hp : udfChain.length > 0 := by
        rw [hlen]
        exact List.length_pos.mpr hu
      rw [aggregatedFunctions, if_pos hp, if_neg hu]
  refine ⟨hstruct, hdest, ?_, ?_⟩
  · intro hacc
    have hfilter : (functions connection mainF functionsFilter).filter isDestinationRef =
        ((applyFilter functionsFilter (connection.options.functions.getD [])).filter
          isDestinationRef) ++ [mainF] := by
      unfold functions applyFilter
      rw [List.filter_append, List.filter_append]
      simp [hacc, hdest]
    constructor
    · rw [hfilter]
      exact List.getLast?_concat _
    · rw [hstruct, hfilter, ← List.append_assoc]
      exact List.getLast?_concat _
  · intro fns' ht hd
    rw [aggregatedFunctions, aggregatedFunctions, ht, hd]

/-- Declared references for the C1 concrete run, deliberately interleaved
as destination, then UDF, then transformation. -/
def c1Tr : FunctionRef :=
  { functionId := "builtin.transformation.addTimestamp", functionOptions := FunctionOptions.absent }

def c1Udf : FunctionRef :=
  { functionId := "udf.f1", functionOptions := FunctionOptions.absent }

def c1Dest : FunctionRef :=
  { functionId := "builtin.destination.webhook", functionOptions := FunctionOptions.absent }

def c1Connection : Connection :=
  { sampleConnection with
    options := { functions := some [c1Dest, c1Udf, c1Tr], dataLayout := none } }

def c1MainF : FunctionRef :=
  { functionId := "builtin.destination.bulker"
    functionOptions := FunctionOptions.bulkerOpts
      { bulkerEndpoint := "burl", destinationId := "c1", authToken := "bkey"
        dataLayout := "segment-single-table" } }

def c1GetConfig : String → Option FunctionDef :=
  fun _ => some { workspaceId := "w1", name := "f1", code := "code" }

def c1Registry : String → Option Nat := fun _ => some 0

theorem aggregated_step_list_structure_witness :
    mainFunction ("burl") ("bkey") c1Registry c1Connection sampleMessage = Except.ok c1MainF
    ∧ (resolveUdfChain (fun s => s) c1GetConfig c1Connection
        (udfRefs (functions c1Connection c1MainF none)) []
        { entries := [], closed := [], nextWrapperId := 0 }).result =
        Except.ok [{ wrapper := 0, hash := "code" }]
    ∧ aggregatedFunctions (functions c1Connection c1MainF none)
        [{ wrapper := 0, hash := "code" }] = [c1Tr, pipelineRef, c1Dest, c1MainF]
    ∧ aggregatedFunctions (functions c1Connection c1MainF none)
        [{ wrapper := 0, hash := "code" }] =
        (functions c1Connection c1MainF none).filter isTransformationRef
          ++ (if udfRefs (functions c1Connection c1MainF none) = [] then []
              else [pipelineRef])
          ++ (functions c1Connection c1MainF none).filter isDestinationRef
    ∧ isDestinationRef c1MainF = true
    ∧ (aggregatedFunctions (functions c1Connection c1MainF none)
        [{ wrapper := 0, hash := "code" }]).getLast? = some c1MainF :=
  ⟨by decide, by decide, by decide,
   (aggregated_step_list_structure ("burl") ("bkey") c1Registry c1Connection sampleMessage
      c1MainF none (fun s => s) c1GetConfig []
      { entries := [], closed := [], nextWrapperId := 0 }
      [{ wrapper := 0, hash := "code" }] (by decide) (by decide)).1,
   (aggregated_step_list_structure ("burl") ("bkey") c1Registry c1Connection sampleMessage
      c1MainF none (fun s => s) c1GetConfig []
      { entries := [], closed := [], nextWrapperId := 0 }
      [{ wrapper := 0, hash := "code" }] (by decide) (by decide)).2.1,
   ((aggregated_step_list_structure ("burl") ("bkey") c1Registry c1Connection sampleMessage
      c1MainF none (fun s => s) c1GetConfig []
      { entries := [], closed := [], nextWrapperId := 0 }
      [{ wrapper := 0, hash := "code" }] (by decide) (by decide)).2.2.1 (by rfl)).2⟩

end Rotor
